import Mathlib

/-!
# Verification of the KlakSpout frame-count / access-arbitration core

Shallow embedding of `src/Plugin/Spout/SpoutGL/SpoutFrameCount.cpp`
(class `spoutFrameCount`).  Each member function is translated into a pure
Lean function over an explicit state record; the monotonic clock readings
consumed by `UpdateSenderFps` and `HoldFps`, and the OS wait outcomes
consumed by the mutex paths, are passed as explicit parameters.  The
Windows counting semaphore named by the channel is modelled by its count
(`Option Nat`: `none` = no local handle), which is sound for the
single-process call sequences the claims quantify over.
-/

namespace SpoutFC

/-- State of a `spoutFrameCount` object together with the count of the
underlying OS semaphore (when a local handle is held).  Doubles are
modelled as `ℚ`; `long` counters as `Int`. -/
structure SpoutState where
  /-- Field `m_bFrameCount` : registry frame-count flag mirror. -/
  bFrameCount : Bool
  /-- Field `m_bDisabled` : application-disable flag. -/
  bDisabled : Bool
  /-- Field `m_SenderName` (empty string = cleared). -/
  senderName : String
  /-- Field `m_hCountSemaphore` plus the OS object's count: `some c` iff a local
  handle is held and the semaphore's current count is `c`. -/
  countSem : Option Nat
  /-- Field `m_FrameCount`. -/
  frameCount : Int
  /-- Field `m_LastFrameCount`. -/
  lastFrameCount : Int
  /-- Field `m_bIsNewFrame`. -/
  bIsNewFrame : Bool
  /-- Field `m_SenderFps`. -/
  senderFps : ℚ
  /-- Field `m_FrameTimeTotal`. -/
  frameTimeTotal : ℚ
  /-- Field `m_FrameTimeNumber`. -/
  frameTimeNumber : ℚ
  /-- Field `m_millisForFrame`. -/
  millisForFrame : ℚ
  /-- Field `*m_FrameStartPtr` : the HoldFps baseline time point, in msec. -/
  frameStart : ℚ
  deriving Repr, DecidableEq

/-- Constructor `spoutFrameCount::spoutFrameCount()`: `regFlag` is the
registry "Framecount" value read at construction, `rr` the system refresh
rate returned by `GetRefreshRate()`. -/
def initState (regFlag : Bool) (rr : ℚ) : SpoutState :=
  { bFrameCount := regFlag
    bDisabled := false
    senderName := ""
    countSem := none
    frameCount := 0
    lastFrameCount := 0
    bIsNewFrame := false
    senderFps := rr
    frameTimeTotal := 0
    frameTimeNumber := 0
    millisForFrame := 0
    frameStart := 0 }

/-- Member `spoutFrameCount::IsFrameCountEnabled()`. -/
def isFrameCountEnabled (s : SpoutState) : Bool :=
  !(!s.bFrameCount || s.bDisabled)

/-- Member `spoutFrameCount::IsFrameNew()`. -/
def isFrameNew (s : SpoutState) : Bool :=
  s.bIsNewFrame

/-- Member `spoutFrameCount::GetSenderFrame()`. -/
def getSenderFrame (s : SpoutState) : Int :=
  s.frameCount

/-- Member `spoutFrameCount::GetSenderFps()`. -/
def getSenderFps (s : SpoutState) : ℚ :=
  s.senderFps

/-- Member `spoutFrameCount::UpdateSenderFps(long framecount)`.  `ft` is the
elapsed time in msec between the clock reading taken by this call and the
previous one (the `frametime` variable).  The source's nested ifs on the
accumulators are written field-wise here (each updated field carries its
own copy of the branch conditions), which assigns exactly the same values:
when the accumulated frame-equivalents exceed 16 the accumulators reset
and, if the mean frame time is above the 0.0001 s guard, the fps estimate
is damped 0.85/0.15 towards the instantaneous fps; otherwise the
accumulators just grow. -/
def updateSenderFps (n : Int) (ft : ℚ) (s : SpoutState) : SpoutState :=
  if 0 < n then
    let total := s.frameTimeTotal + ft
    let num := s.frameTimeNumber + (n : ℚ)
    let ftsec := total / num / 1000
    { s with
      frameTimeTotal := if 16 < num then 0 else total
      frameTimeNumber := if 16 < num then 0 else num
      senderFps := if 16 < num ∧ 1/10000 < ftsec
                   then 85/100 * s.senderFps + 15/100 * (1 / ftsec)
                   else s.senderFps }
  else s

/-- Member `spoutFrameCount::CleanupFrameCount()`.  `rr` is `GetRefreshRate()`. -/
def cleanupFrameCount (rr : ℚ) (s : SpoutState) : SpoutState :=
  if s.countSem = none then s
  else
    { s with countSem := none
             senderName := ""
             frameCount := 0
             lastFrameCount := 0
             senderFps := rr
             frameTimeTotal := 0
             frameTimeNumber := 0 }

/-- Member `spoutFrameCount::SetFrameCount(bool bEnable)` (the registry write is
kept in lock-step with `m_bFrameCount`, so only the flag is modelled). -/
def setFrameCount (rr : ℚ) (bEnable : Bool) (s : SpoutState) : SpoutState :=
  if bEnable then
    if !s.bFrameCount then
      { s with bFrameCount := true, bDisabled := false }
    else s
  else
    let s1 := if s.bFrameCount && isFrameCountEnabled s then
                cleanupFrameCount rr s
              else s
    { s1 with bFrameCount := false, bDisabled := false }

/-- Member `spoutFrameCount::EnableFrameCount(const char* SenderName)`.
Creating-or-opening the named semaphore is modelled as always succeeding
with a fresh count of 1 (`CreateSemaphoreA(NULL, 1, LONG_MAX, name)`);
in the already-enabled-for-this-name case the existing handle (and the OS
count behind it) is kept. -/
def enableFrameCount (rr : ℚ) (name : String) (s : SpoutState) : SpoutState :=
  if !s.bFrameCount then s
  else if s.bDisabled then s
  else if name = "" then s
  else
    -- Reset frame count, comparator, fps variables and timers
    -- (this happens BEFORE the already-enabled check in the source).
    let s1 := { s with frameCount := 0
                       lastFrameCount := 0
                       frameTimeTotal := 0
                       frameTimeNumber := 0
                       senderFps := rr
                       millisForFrame := 0
                       frameStart := 0 }
    if s1.countSem.isSome && s1.senderName = name then s1
    else
      { s1 with senderName := name, countSem := some 1 }

/-- Member `spoutFrameCount::DisableFrameCount()`. -/
def disableFrameCount (rr : ℚ) (s : SpoutState) : SpoutState :=
  { cleanupFrameCount rr s with bDisabled := true }

/-- Member `spoutFrameCount::SetNewFrame()` (publish).  A zero-timeout
`WaitForSingleObject` on the count semaphore succeeds iff the count is
positive (claiming 1); `ReleaseSemaphore(sem, 2)` then restores the count
plus 2 and the local frame number and fps accumulate.  With no handle the
wait fails (`WAIT_FAILED`) and nothing changes. -/
def setNewFrame (ft : ℚ) (s : SpoutState) : SpoutState :=
  if !s.bFrameCount || s.bDisabled then s
  else
    match s.countSem with
    | none => s
    | some c =>
      if 0 < c then
        updateSenderFps 1 ft
          { s with countSem := some (c - 1 + 2), frameCount := s.frameCount + 1 }
      else s

/-- Member `spoutFrameCount::GetNewFrame()` (poll).  Returns the `bool` result
and the new state.  On a successful zero-timeout claim the count drops
from `c` to `c - 1`; `ReleaseSemaphore(sem, 1, &framecount)` stores the
pre-release count `c - 1` into `framecount` and restores the count to
`c`.  On `WAIT_TIMEOUT` (count 0) the local `framecount` keeps its
initial value 0. -/
def getNewFrame (ft : ℚ) (s : SpoutState) : Bool × SpoutState :=
  if !s.bFrameCount || s.bDisabled then (true, s)
  else
    match s.countSem with
    | none => (true, s)
    | some c =>
      let framecount : Int := if 0 < c then (c : Int) - 1 else 0
      let s1 := { s with frameCount := framecount }
      if framecount = 0 then (true, s1)
      else if framecount = s1.lastFrameCount then
        (false, { s1 with bIsNewFrame := false })
      else
        let s2 := updateSenderFps (framecount - s1.lastFrameCount) ft s1
        (true, { s2 with lastFrameCount := framecount, bIsNewFrame := true })

/-- Member `spoutFrameCount::HoldFps(int fps)` (USE_CHRONO branch).  `now` is the
`steady_clock::now()` reading taken on entry, `now2` the reading taken
after the (possible) sleep; both in msec.  Returns the new state and
`some d` when `sleep_for(milliseconds d)` was called (the `(long)` cast
truncates the positive remainder), `none` when no sleep call was made. -/
def holdFps (fps : Int) (now now2 : ℚ) (s : SpoutState) : SpoutState × Option Nat :=
  if fps ≤ 0 then (s, none)
  else
    if s.millisForFrame < 1/100 then
      ({ s with millisForFrame := 1000 / (fps : ℚ), frameStart := now }, none)
    else
      let elapsed := now - s.frameStart
      if elapsed < s.millisForFrame then
        (({ s with frameStart := now2 }),
          some (s.millisForFrame - elapsed).floor.toNat)
      else
        ({ s with frameStart := now2 }, none)

/-! ## Texture access mutex (AccessArbiter) -/

/-- Outcome of `WaitForSingleObject` / `IDXGIKeyedMutex::AcquireSync`:
`object0` = `WAIT_OBJECT_0`, `abandoned` = `WAIT_ABANDONED`, `timeout` =
`WAIT_TIMEOUT`, `failed` = `WAIT_FAILED`, `other` = any other value
(reaching the `default` branch of the switch). -/
inductive WaitResult where
  | object0
  | abandoned
  | timeout
  | failed
  | other
  deriving Repr, DecidableEq

/-- What an `ID3D11Texture2D` instance advertises: `keyedFlag` is whether
`GetDesc` reports `D3D11_RESOURCE_MISC_SHARED_KEYEDMUTEX` in `MiscFlags`;
`keyedInterface` is whether `QueryInterface(IDXGIKeyedMutex)` yields a
non-null interface pointer. -/
structure TexDesc where
  keyedFlag : Bool
  keyedInterface : Bool
  deriving Repr, DecidableEq

/-- Observable outcome of one acquire call: the boolean result, whether a
`WaitForSingleObject` on the named access mutex happened (`genericWait`),
whether `AcquireSync` (`keyedAcquire`) or a compensating `ReleaseSync`
(`keyedRelease`) happened, and whether a `SpoutLogError` was emitted. -/
structure AccessOutcome where
  ok : Bool := false
  genericWait : Bool := false
  keyedAcquire : Bool := false
  keyedRelease : Bool := false
  logErr : Bool := false
  deriving Repr, DecidableEq

/-- Observable outcome of one release call: whether `ReleaseMutex` on the
named access mutex and/or `ReleaseSync` on the keyed mutex was invoked. -/
structure ReleaseOutcome where
  genericRelease : Bool := false
  keyedRelease : Bool := false
  deriving Repr, DecidableEq

/-- Member `spoutFrameCount::IsKeyedMutex(ID3D11Texture2D*)`: null texture or no
keyed-mutex misc flag means false. -/
def isKeyedMutex : Option TexDesc → Bool
  | none => false
  | some t => t.keyedFlag

/-- Member `spoutFrameCount::CheckAccess()`.  `hMutex` is `m_hAccessMutex`; `r`
is the result the OS wait would return.  With no mutex handle the call
returns true immediately with no wait. -/
def checkAccess (hMutex : Option Unit) (r : WaitResult) : AccessOutcome :=
  match hMutex with
  | none => { ok := true }
  | some _ =>
    match r with
    | .object0 => { ok := true, genericWait := true }
    | .abandoned => { ok := false, genericWait := true, logErr := true }
    | .timeout => { ok := false, genericWait := true, logErr := false }
    | .failed => { ok := false, genericWait := true, logErr := true }
    | .other => { ok := false, genericWait := true, logErr := true }

/-- Member `spoutFrameCount::CheckKeyedAccess(ID3D11Texture2D*)`.  With a null
texture or a null `IDXGIKeyedMutex` interface it returns false with no
wait; otherwise `AcquireSync(0, 67)` runs and on any non-`WAIT_OBJECT_0`
result a compensating `ReleaseSync(0)` is issued before returning false
(the `default` branch logs nothing). -/
def checkKeyedAccess (tex : Option TexDesc) (r : WaitResult) : AccessOutcome :=
  match tex with
  | none => { ok := false }
  | some t =>
    if t.keyedInterface then
      match r with
      | .object0 => { ok := true, keyedAcquire := true }
      | .abandoned => { ok := false, keyedAcquire := true, keyedRelease := true, logErr := true }
      | .timeout => { ok := false, keyedAcquire := true, keyedRelease := true, logErr := true }
      | .failed => { ok := false, keyedAcquire := true, keyedRelease := true, logErr := false }
      | .other => { ok := false, keyedAcquire := true, keyedRelease := true, logErr := false }
    else { ok := false }

/-- Member `spoutFrameCount::CheckTextureAccess(ID3D11Texture2D*)`: keyed path
iff `IsKeyedMutex` reports the misc flag, generic named mutex otherwise. -/
def checkTextureAccess (tex : Option TexDesc) (hMutex : Option Unit)
    (r : WaitResult) : AccessOutcome :=
  if isKeyedMutex tex then checkKeyedAccess tex r
  else checkAccess hMutex r

/-- Member `spoutFrameCount::AllowAccess()`: `ReleaseMutex` iff a handle exists. -/
def allowAccess (hMutex : Option Unit) : ReleaseOutcome :=
  { genericRelease := hMutex.isSome }

/-- Member `spoutFrameCount::AllowKeyedAccess(ID3D11Texture2D*)`: `ReleaseSync`
iff the texture is non-null and exposes the keyed-mutex interface. -/
def allowKeyedAccess (tex : Option TexDesc) : ReleaseOutcome :=
  match tex with
  | none => { }
  | some t => { keyedRelease := t.keyedInterface }

/-- Member `spoutFrameCount::AllowTextureAccess(ID3D11Texture2D*)`. -/
def allowTextureAccess (tex : Option TexDesc) (hMutex : Option Unit) : ReleaseOutcome :=
  if isKeyedMutex tex then allowKeyedAccess tex
  else allowAccess hMutex

/-! ## Operation traces

Single-process call sequences against one `spoutFrameCount` object,
used to quantify over reachable states. -/

/-- One public call on the frame-count object, carrying the clock inputs
the call consumes. -/
inductive Op where
  | setFC (bEnable : Bool)
  | enable (name : String)
  | disable
  | publish (ft : ℚ)
  | poll (ft : ℚ)
  | hold (fps : Int) (now now2 : ℚ)
  deriving Repr, DecidableEq

/-- Apply one call to the state (discarding the returned booleans). -/
def runOp (rr : ℚ) (s : SpoutState) : Op → SpoutState
  | .setFC b => setFrameCount rr b s
  | .enable n => enableFrameCount rr n s
  | .disable => disableFrameCount rr s
  | .publish ft => setNewFrame ft s
  | .poll ft => (getNewFrame ft s).2
  | .hold fps now now2 => (holdFps fps now now2 s).1

/-- State after running a call sequence from a freshly constructed
object (`regFlag` = registry flag at construction, `rr` = refresh rate). -/
def run (rr : ℚ) (regFlag : Bool) (ops : List Op) : SpoutState :=
  ops.foldl (runOp rr) (initState regFlag rr)

/-- Whether a call is a `publish` (`SetNewFrame`). -/
def Op.isPublish : Op → Bool
  | .publish _ => true
  | _ => false

/-- The value a poll's claim-then-restore peek captures: the semaphore
count after the zero-timeout claim (`c - 1` on success), or 0 when the
claim times out or no handle exists (the local `framecount` initial
value). -/
def observedCount (s : SpoutState) : Int :=
  match s.countSem with
  | none => 0
  | some c => if 0 < c then (c : Int) - 1 else 0

/-- Invariant holding in every state reachable without a successful
`publish`: both counters are 0 and any held semaphore still has its
initial count 1. -/
def NoPublishInv (s : SpoutState) : Prop :=
  s.frameCount = 0 ∧ s.lastFrameCount = 0 ∧ ∀ c, s.countSem = some c → c = 1

/-- Sample channel state: enabled for sender "A" after one published
frame that the consumer has not yet polled (semaphore count 2). -/
def wChan : SpoutState :=
  { bFrameCount := true
    bDisabled := false
    senderName := "A"
    countSem := some 2
    frameCount := 1
    lastFrameCount := 0
    bIsNewFrame := false
    senderFps := 60
    frameTimeTotal := 0
    frameTimeNumber := 1
    millisForFrame := 0
    frameStart := 0 }

/-- Sample pacing state: a first `HoldFps(50)` call has recorded the
20 ms target period and a baseline of 0. -/
def wHold : SpoutState :=
  { initState true 60 with millisForFrame := 1000 / ((50 : Int) : ℚ) }

/-! ## Helper lemmas -/

@[simp] theorem updateSenderFps_bFrameCount (n : Int) (ft : ℚ) (s : SpoutState) :
    (updateSenderFps n ft s).bFrameCount = s.bFrameCount := by
  unfold updateSenderFps; split <;> rfl

@[simp] theorem updateSenderFps_bDisabled (n : Int) (ft : ℚ) (s : SpoutState) :
    (updateSenderFps n ft s).bDisabled = s.bDisabled := by
  unfold updateSenderFps; split <;> rfl

@[simp] theorem updateSenderFps_senderName (n : Int) (ft : ℚ) (s : SpoutState) :
    (updateSenderFps n ft s).senderName = s.senderName := by
  unfold updateSenderFps; split <;> rfl

@[simp] theorem updateSenderFps_countSem (n : Int) (ft : ℚ) (s : SpoutState) :
    (updateSenderFps n ft s).countSem = s.countSem := by
  unfold updateSenderFps; split <;> rfl

@[simp] theorem updateSenderFps_frameCount (n : Int) (ft : ℚ) (s : SpoutState) :
    (updateSenderFps n ft s).frameCount = s.frameCount := by
  unfold updateSenderFps; split <;> rfl

@[simp] theorem updateSenderFps_lastFrameCount (n : Int) (ft : ℚ) (s : SpoutState) :
    (updateSenderFps n ft s).lastFrameCount = s.lastFrameCount := by
  unfold updateSenderFps; split <;> rfl

@[simp] theorem updateSenderFps_bIsNewFrame (n : Int) (ft : ℚ) (s : SpoutState) :
    (updateSenderFps n ft s).bIsNewFrame = s.bIsNewFrame := by
  unfold updateSenderFps; split <;> rfl

theorem setNewFrame_enabled (ft : ℚ) (s : SpoutState) (c : Nat)
    (hb : s.bFrameCount = true) (hd : s.bDisabled = false)
    (hc : s.countSem = some c) (hpos : 0 < c) :
    setNewFrame ft s = updateSenderFps 1 ft
      { s with countSem := some (c + 1), frameCount := s.frameCount + 1 } := by
  have h2 : c - 1 + 2 = c + 1 := by omega
  unfold setNewFrame
  rw [hb, hd, hc]
  simp [hpos, h2]

theorem setNewFrame_fields (ft : ℚ) (s : SpoutState) (c : Nat)
    (hb : s.bFrameCount = true) (hd : s.bDisabled = false)
    (hc : s.countSem = some c) (hpos : 0 < c) :
    (setNewFrame ft s).bFrameCount = true ∧ (setNewFrame ft s).bDisabled = false
    ∧ (setNewFrame ft s).countSem = some (c + 1)
    ∧ (setNewFrame ft s).frameCount = s.frameCount + 1
    ∧ (setNewFrame ft s).lastFrameCount = s.lastFrameCount := by
  rw [setNewFrame_enabled ft s c hb hd hc hpos]
  simp [hb, hd]

theorem publish_iter_fields (rr ft : ℚ) (N : Nat) :
    ((setNewFrame ft)^[N] (enableFrameCount rr "Sender" (initState true rr))).bFrameCount = true
    ∧ ((setNewFrame ft)^[N] (enableFrameCount rr "Sender" (initState true rr))).bDisabled = false
    ∧ ((setNewFrame ft)^[N] (enableFrameCount rr "Sender" (initState true rr))).countSem = some (N + 1)
    ∧ ((setNewFrame ft)^[N] (enableFrameCount rr "Sender" (initState true rr))).frameCount = (N : Int)
    ∧ ((setNewFrame ft)^[N] (enableFrameCount rr "Sender" (initState true rr))).lastFrameCount = 0 := by
  induction N with
  | zero => exact ⟨rfl, rfl, rfl, rfl, rfl⟩
  | succ n ih =>
    obtain ⟨h1, h2, h3, h4, h5⟩ := ih
    rw [Function.iterate_succ_apply']
    have h := setNewFrame_fields ft _ (n + 1) h1 h2 h3 (Nat.succ_pos n)
    refine ⟨h.1, h.2.1, ?_, ?_, ?_⟩
    · rw [h.2.2.1]
    · rw [h.2.2.2.1, h4]; push_cast; ring
    · rw [h.2.2.2.2, h5]

theorem getNewFrame_frameCount (ft : ℚ) (s : SpoutState) (c : Nat)
    (hb : s.bFrameCount = true) (hd : s.bDisabled = false)
    (hc : s.countSem = some c) (hpos : 0 < c) :
    (getNewFrame ft s).2.frameCount = (c : Int) - 1 := by
  unfold getNewFrame
  rw [hb, hd, hc]
  simp only [Bool.not_true, Bool.false_or]
  split_ifs <;> simp_all

/-! ## Claim C1 -/

/-- C1: starting from a fresh enabled channel (semaphore created with
initial count 1), after N publishes with no interleaved poll the
semaphore count is N + 1, the producer's local frame number is N, and the
pre-restore count a consumer's first poll captures (its stored observed
value) equals N. -/
theorem publish_sequence_counter (rr ft ftp : ℚ) (N : Nat) :
    ((setNewFrame ft)^[N] (enableFrameCount rr "Sender" (initState true rr))).countSem
        = some (N + 1)
    ∧ ((setNewFrame ft)^[N] (enableFrameCount rr "Sender" (initState true rr))).frameCount
        = (N : Int)
    ∧ observedCount ((setNewFrame ft)^[N] (enableFrameCount rr "Sender" (initState true rr)))
        = (N : Int)
    ∧ (getNewFrame ftp ((setNewFrame ft)^[N] (enableFrameCount rr "Sender" (initState true rr)))).2.frameCount
        = (N : Int) := by
  obtain ⟨h1, h2, h3, h4, h5⟩ := publish_iter_fields rr ft N
  refine ⟨h3, h4, ?_, ?_⟩
  · unfold observedCount
    rw [h3]
    simp [Nat.succ_pos N]
  · rw [getNewFrame_frameCount ftp _ (N + 1) h1 h2 h3 (Nat.succ_pos N)]
    push_cast; ring

/-! ## Claim C2 -/

/-- C2 counterexample: on a fresh enabled channel the first poll reaches
the peek and observes 0 with lastObserved 0, so the claimed formula
(observed != lastObserved) || (observed == 0) evaluates to true, yet the
flag `IsFrameNew` reports stays false: the observed == 0 early return
skips the flag assignment. -/
theorem poll_flag_formula_counterexample :
    (enableFrameCount 60 "Sender" (initState true 60)).countSem = some 1
    ∧ observedCount (enableFrameCount 60 "Sender" (initState true 60)) = 0
    ∧ (enableFrameCount 60 "Sender" (initState true 60)).lastFrameCount = 0
    ∧ (decide ((0 : Int) ≠ 0) || decide ((0 : Int) = 0)) = true
    ∧ isFrameNew ((getNewFrame 0 (enableFrameCount 60 "Sender" (initState true 60))).2) = false := by
  decide

/-- C2 (amended): a poll that reaches the peek and observes a nonzero
value sets the flag returned by `IsFrameNew` to (observed != lastObserved),
returns that same boolean, and leaves lastObserved equal to observed;
when the observed value is 0 the poll returns true but leaves the flag
and lastObserved untouched. -/
theorem poll_flag_semantics (ft : ℚ) (s : SpoutState) (c : Nat)
    (hb : s.bFrameCount = true) (hd : s.bDisabled = false)
    (hc : s.countSem = some c) :
    (observedCount s ≠ 0 →
        isFrameNew (getNewFrame ft s).2 = decide (observedCount s ≠ s.lastFrameCount)
        ∧ (getNewFrame ft s).2.lastFrameCount = observedCount s
        ∧ (getNewFrame ft s).1 = decide (observedCount s ≠ s.lastFrameCount))
    ∧ (observedCount s = 0 →
        (getNewFrame ft s).1 = true
        ∧ isFrameNew (getNewFrame ft s).2 = isFrameNew s
        ∧ (getNewFrame ft s).2.lastFrameCount = s.lastFrameCount) := by
  unfold observedCount getNewFrame isFrameNew
  rw [hb, hd, hc]
  simp only [Bool.not_true, Bool.false_or]
  split_ifs with h1 h2 h3 <;> simp_all

/-- C2 witness: on `wChan` (count 2, lastObserved 0) the poll observes 1,
sets the flag true, returns true, and stores 1 as lastObserved. -/
theorem poll_flag_semantics_witness :
    isFrameNew (getNewFrame 0 wChan).2 = true
    ∧ (getNewFrame 0 wChan).2.lastFrameCount = 1
    ∧ (getNewFrame 0 wChan).1 = true := by
  have h := ((poll_flag_semantics 0 wChan 2 rfl rfl rfl).1 (by decide))
  simpa using h

/-! ## Claim C3 -/

theorem noPublishInv_init (regFlag : Bool) (rr : ℚ) :
    NoPublishInv (initState regFlag rr) := by
  refine ⟨rfl, rfl, ?_⟩
  intro c h
  cases h

theorem getNewFrame_noPublish (ft : ℚ) (s : SpoutState) (h : NoPublishInv s) :
    (getNewFrame ft s).1 = true ∧ NoPublishInv (getNewFrame ft s).2 := by
  obtain ⟨h1, h2, h3⟩ := h
  unfold getNewFrame
  rcases hsem : s.countSem with _ | c
  · split_ifs <;> exact ⟨rfl, h1, h2, h3⟩
  · have hc1 : c = 1 := h3 c hsem
    subst hc1
    split_ifs with hcond
    · exact ⟨rfl, h1, h2, h3⟩
    · refine ⟨?_, ?_, ?_, ?_⟩ <;> simp_all

theorem noPublishInv_step (rr : ℚ) (s : SpoutState) (op : Op)
    (h : NoPublishInv s) (hop : op.isPublish = false) :
    NoPublishInv (runOp rr s op) := by
  obtain ⟨h1, h2, h3⟩ := h
  cases op with
  | setFC b =>
    cases b <;>
      simp only [runOp, setFrameCount, cleanupFrameCount, isFrameCountEnabled, NoPublishInv] <;>
      split_ifs <;> simp_all <;> exact h3
  | enable n =>
    simp only [runOp, enableFrameCount, NoPublishInv]
    split_ifs <;> simp_all <;> exact h3
  | disable =>
    simp only [runOp, disableFrameCount, cleanupFrameCount, NoPublishInv]
    split_ifs <;> simp_all
  | publish ft => simp [Op.isPublish] at hop
  | poll ft => exact (getNewFrame_noPublish ft s ⟨h1, h2, h3⟩).2
  | hold fps now now2 =>
    simp only [runOp, holdFps, NoPublishInv]
    split_ifs <;> simp_all <;> exact h3

theorem noPublishInv_run (rr : ℚ) (regFlag : Bool) (ops : List Op)
    (hops : ∀ op ∈ ops, op.isPublish = false) :
    NoPublishInv (run rr regFlag ops) := by
  suffices h : ∀ (l : List Op) (s : SpoutState), NoPublishInv s →
      (∀ op ∈ l, op.isPublish = false) → NoPublishInv (l.foldl (runOp rr) s) by
    exact h ops (initState regFlag rr) (noPublishInv_init regFlag rr) hops
  intro l
  induction l with
  | nil => exact fun s hs _ => hs
  | cons a l ih =>
    intro s hs hl
    have ha := hl a (List.mem_cons_self a l)
    have hrest : ∀ op ∈ l, op.isPublish = false :=
      fun op hop => hl op (List.mem_cons_of_mem a hop)
    simpa using ih (runOp rr s a) (noPublishInv_step rr s a hs ha) hrest

/-- C3: on any state reached from construction by a call sequence with no
publish, a poll returns true (fail-open) and leaves the stored observed
counter values at 0; moreover on any state that is disabled (registry
flag off or application-disabled) or has no counting primitive, a poll
returns true. -/
theorem poll_fail_open (rr ft : ℚ) (regFlag : Bool) (ops : List Op)
    (hops : ∀ op ∈ ops, op.isPublish = false) :
    ((getNewFrame ft (run rr regFlag ops)).1 = true
      ∧ (getNewFrame ft (run rr regFlag ops)).2.frameCount = 0
      ∧ (getNewFrame ft (run rr regFlag ops)).2.lastFrameCount = 0)
    ∧ ∀ s : SpoutState, (s.bFrameCount = false ∨ s.bDisabled = true ∨ s.countSem = none) →
        (getNewFrame ft s).1 = true := by
  constructor
  · have hinv := noPublishInv_run rr regFlag ops hops
    have h := getNewFrame_noPublish ft _ hinv
    exact ⟨h.1, h.2.1, h.2.2.1⟩
  · intro s hs
    unfold getNewFrame
    rcases hs with h | h | h
    · simp [h]
    · simp [h]
    · rw [h]
      split_ifs <;> rfl

/-- C3 witness: enable then one poll (no publish anywhere) — the next
poll returns true and the observed counter value stays 0. -/
theorem poll_fail_open_witness :
    (getNewFrame 0 (run 60 true [Op.enable "A", Op.poll 0])).1 = true
    ∧ (getNewFrame 0 (run 60 true [Op.enable "A", Op.poll 0])).2.frameCount = 0 := by
  have h := poll_fail_open 60 0 true [Op.enable "A", Op.poll 0] (by decide)
  exact ⟨h.1.1, h.1.2.1⟩

/-! ## Claim C4 -/

theorem getNewFrame_preserved (ft : ℚ) (s : SpoutState) :
    (getNewFrame ft s).2.bFrameCount = s.bFrameCount
    ∧ (getNewFrame ft s).2.bDisabled = s.bDisabled
    ∧ (getNewFrame ft s).2.countSem = s.countSem := by
  unfold getNewFrame
  rcases hsem : s.countSem with _ | c <;>
    refine ⟨?_, ?_, ?_⟩ <;>
      simp [apply_ite (fun p : Bool × SpoutState => p.2.bFrameCount),
            apply_ite (fun p : Bool × SpoutState => p.2.bDisabled),
            apply_ite (fun p : Bool × SpoutState => p.2.countSem), hsem]

/-- C4 counterexample: on a fresh enabled channel where no publish has
ever occurred, two consecutive polls with no intervening publish both
return true (the observed value is 0 both times and the zero path
returns true unconditionally), contradicting "true then false in every
channel state". -/
theorem poll_twice_counterexample :
    (getNewFrame 0 (enableFrameCount 60 "Sender" (initState true 60))).1 = true
    ∧ (getNewFrame 0 (getNewFrame 0 (enableFrameCount 60 "Sender" (initState true 60))).2).1
        = true := by
  decide

/-- C4 (amended): in every enabled channel state whose pending observed
value (count - 1) is nonzero and differs from the lastObserved
comparator, two consecutive polls with no intervening publish return
true then false. -/
theorem poll_true_then_false (ft ft2 : ℚ) (s : SpoutState) (c : Nat)
    (hb : s.bFrameCount = true) (hd : s.bDisabled = false) (hc : s.countSem = some c)
    (hcge : 1 < c) (hne : (c : Int) - 1 ≠ s.lastFrameCount) :
    (getNewFrame ft s).1 = true
    ∧ (getNewFrame ft2 (getNewFrame ft s).2).1 = false := by
  have hcpos : 0 < c := by omega
  have hobs : observedCount s = (c : Int) - 1 := by
    unfold observedCount; rw [hc]; simp [hcpos]
  have hobs_ne : observedCount s ≠ 0 := by rw [hobs]; omega
  have h1 := (poll_flag_semantics ft s c hb hd hc).1 hobs_ne
  have hpres := getNewFrame_preserved ft s
  constructor
  · rw [h1.2.2, hobs]
    simpa using hne
  · have hb2 : (getNewFrame ft s).2.bFrameCount = true := by rw [hpres.1, hb]
    have hd2 : (getNewFrame ft s).2.bDisabled = false := by rw [hpres.2.1, hd]
    have hc2 : (getNewFrame ft s).2.countSem = some c := by rw [hpres.2.2, hc]
    have hobs2 : observedCount (getNewFrame ft s).2 = (c : Int) - 1 := by
      unfold observedCount; rw [hc2]; simp [hcpos]
    have hobs2_ne : observedCount (getNewFrame ft s).2 ≠ 0 := by rw [hobs2]; omega
    have h2 := (poll_flag_semantics ft2 (getNewFrame ft s).2 c hb2 hd2 hc2).1 hobs2_ne
    rw [h2.2.2, hobs2, h1.2.1, hobs]
    simp

/-- C4 witness: on `wChan` (one pending published frame, lastObserved 0)
the two consecutive polls return true then false. -/
theorem poll_true_then_false_witness :
    (getNewFrame 0 wChan).1 = true
    ∧ (getNewFrame 0 (getNewFrame 0 wChan).2).1 = false :=
  poll_true_then_false 0 0 wChan 2 rfl rfl rfl (by omega) (by decide)

/-! ## Claim C5 -/

/-- C5 counterexample: a `WAIT_ABANDONED` result on the named access
mutex makes `CheckAccess` log an error and return false: the acquire is
treated as a failure, not as acquired. -/
theorem abandoned_counterexample :
    (checkAccess (some ()) WaitResult.abandoned).ok = false
    ∧ (checkAccess (some ()) WaitResult.abandoned).logErr = true := by
  decide

/-- C5 (amended): an abandoned wait is logged at error (high) severity
but the acquire returns failure (false) rather than success, on the
generic named-mutex path and likewise on the keyed path whenever the
keyed interface exists. -/
theorem abandoned_logged_failure (t : TexDesc) :
    (checkAccess (some ()) WaitResult.abandoned).ok = false
    ∧ (checkAccess (some ()) WaitResult.abandoned).logErr = true
    ∧ (checkKeyedAccess (some t) WaitResult.abandoned).ok = false
    ∧ (checkKeyedAccess (some t) WaitResult.abandoned).logErr = t.keyedInterface := by
  obtain ⟨kf, ki⟩ := t
  cases ki <;> exact ⟨rfl, rfl, rfl, rfl⟩

/-! ## Claim C6 -/

/-- C6 counterexample: `CheckTextureAccess` with a null texture but an
existing named access mutex is not a no-op: it falls back to
`CheckAccess`, which performs a bounded wait on the named mutex. -/
theorem null_texture_counterexample :
    (checkTextureAccess none (some ()) WaitResult.object0).genericWait = true := by
  decide

/-- C6 (amended): with a null texture the keyed path is never invoked
and the call falls back to the generic named-lock path; acquire and
release are no-ops returning success with no lock wait exactly when the
named access mutex handle is also absent. -/
theorem null_resource_noop (r : WaitResult) :
    checkTextureAccess none none r =
      { ok := true, genericWait := false, keyedAcquire := false,
        keyedRelease := false, logErr := false }
    ∧ allowTextureAccess none none =
      { genericRelease := false, keyedRelease := false }
    ∧ (checkTextureAccess none (some ()) r).keyedAcquire = false
    ∧ (checkTextureAccess none (some ()) r).keyedRelease = false
    ∧ (checkTextureAccess none (some ()) r).genericWait = true
    ∧ (allowTextureAccess none (some ())).genericRelease = true := by
  cases r <;> exact ⟨rfl, rfl, rfl, rfl, rfl, rfl⟩

/-! ## Claim C7 -/

/-- C7 counterexample: after five published frames, calling
`EnableFrameCount` again with the identical sender name keeps the
semaphore handle but resets the frame number from 5 to 0 (the counter
reset runs before the already-enabled early return), so the call is not
a no-op. -/
theorem enable_same_name_counterexample :
    ((setNewFrame 0)^[5] (enableFrameCount 60 "Sender" (initState true 60))).senderName
        = "Sender"
    ∧ ((setNewFrame 0)^[5] (enableFrameCount 60 "Sender" (initState true 60))).frameCount = 5
    ∧ (enableFrameCount 60 "Sender"
        ((setNewFrame 0)^[5] (enableFrameCount 60 "Sender" (initState true 60)))).frameCount = 0
    ∧ (enableFrameCount 60 "Sender"
        ((setNewFrame 0)^[5] (enableFrameCount 60 "Sender" (initState true 60)))).countSem
        = some 6 := by
  decide

/-- C7 (amended): `EnableFrameCount` called when already enabled for the
identical (non-empty) name keeps the semaphore handle, the sender name
and the enable flags, but resets the frame number, the lastObserved
comparator, the fps estimate (to the refresh rate) and all timing
accumulators. -/
theorem enable_same_name_resets (rr : ℚ) (name : String) (s : SpoutState) (c : Nat)
    (hb : s.bFrameCount = true) (hd : s.bDisabled = false) (hn : name ≠ "")
    (hc : s.countSem = some c) (hs : s.senderName = name) :
    enableFrameCount rr name s =
      { s with frameCount := 0
               lastFrameCount := 0
               frameTimeTotal := 0
               frameTimeNumber := 0
               senderFps := rr
               millisForFrame := 0
               frameStart := 0 } := by
  unfold enableFrameCount
  rw [hb, hd]
  simp [hn, hs, hc]

/-- C7 witness: re-enabling `wChan` for its current sender name "A"
yields exactly the counter-reset state with the handle kept. -/
theorem enable_same_name_resets_witness :
    enableFrameCount 60 "A" wChan =
      { wChan with frameCount := 0
                   lastFrameCount := 0
                   frameTimeTotal := 0
                   frameTimeNumber := 0
                   senderFps := 60
                   millisForFrame := 0
                   frameStart := 0 } :=
  enable_same_name_resets 60 "A" wChan 2 rfl rfl (by decide) rfl rfl

/-! ## Claim C8 -/

/-- C8: per acquire/release call the two lock strategies are mutually
exclusive and selected by the descriptor flag queried on that same call:
a keyed-capable resource never waits on the generic named lock, a
non-keyed resource never enters the keyed path, and no single call
engages both. -/
theorem lock_strategy_exclusive (t : TexDesc) (hMutex : Option Unit) (r : WaitResult) :
    (checkTextureAccess (some t) hMutex r).genericWait = (!t.keyedFlag && hMutex.isSome)
    ∧ ((checkTextureAccess (some t) hMutex r).keyedAcquire
        || (checkTextureAccess (some t) hMutex r).keyedRelease)
        = (t.keyedFlag && t.keyedInterface)
    ∧ (allowTextureAccess (some t) hMutex).genericRelease = (!t.keyedFlag && hMutex.isSome)
    ∧ (allowTextureAccess (some t) hMutex).keyedRelease = (t.keyedFlag && t.keyedInterface)
    ∧ ((checkTextureAccess (some t) hMutex r).genericWait
        && ((checkTextureAccess (some t) hMutex r).keyedAcquire
            || (checkTextureAccess (some t) hMutex r).keyedRelease)) = false := by
  obtain ⟨kf, ki⟩ := t
  cases kf <;> cases ki <;> rcases hMutex with _ | u <;> cases r <;>
    exact ⟨rfl, rfl, rfl, rfl, rfl⟩

/-! ## Claim C9 -/

/-- C9: `HoldFps` is a no-op for a non-positive target; the first
effective call (recorded period below the 0.01 ms sentinel) records the
1000/fps ms target period and the entry-time baseline and returns
without sleeping; once the period is recorded for the target rate, each
call sleeps for the truncated remainder of the period exactly when the
elapsed time since the baseline is below the period, and always rebases
the baseline to the post-sleep clock reading. -/
theorem holdFps_spec (fps : Int) (now now2 : ℚ) (s : SpoutState) :
    (fps ≤ 0 → holdFps fps now now2 s = (s, none))
    ∧ (0 < fps → s.millisForFrame < 1/100 →
        holdFps fps now now2 s =
          ({ s with millisForFrame := 1000 / (fps : ℚ), frameStart := now }, none))
    ∧ (0 < fps → s.millisForFrame = 1000 / (fps : ℚ) → 1/100 ≤ s.millisForFrame →
        (holdFps fps now now2 s).1 = { s with frameStart := now2 }
        ∧ (holdFps fps now now2 s).2 =
            (if now - s.frameStart < 1000 / (fps : ℚ)
             then some ((1000 / (fps : ℚ) - (now - s.frameStart)).floor.toNat)
             else none)) := by
  refine ⟨?_, ?_, ?_⟩
  · intro h
    unfold holdFps
    simp [h]
  · intro h0 hm
    unfold holdFps
    rw [if_neg (show ¬fps ≤ 0 by omega), if_pos hm]
  · intro h0 hm hge
    unfold holdFps
    rw [if_neg (show ¬fps ≤ 0 by omega), if_neg (not_lt.mpr hge)]
    constructor
    · by_cases hcase : now - s.frameStart < s.millisForFrame <;> simp [hcase]
    · rw [hm]
      by_cases hcase : now - s.frameStart < 1000 / (fps : ℚ) <;> simp [hcase]

/-- C9 witness: at 50 fps (20 ms period) with baseline 0, a call at
entry time 10 ms sleeps 10 ms and rebases the baseline to the post-sleep
reading 17 ms. -/
theorem holdFps_spec_witness :
    (0 : Int) < 50
    ∧ (holdFps 50 10 17 wHold).1 = { wHold with frameStart := 17 }
    ∧ (holdFps 50 10 17 wHold).2 = some 10 := by
  have h := (holdFps_spec 50 10 17 wHold).2.2 (by norm_num) rfl
    (by norm_num [wHold, initState])
  refine ⟨by norm_num, h.1, ?_⟩
  have hlt : (10 : ℚ) - wHold.frameStart < 1000 / ((50 : Int) : ℚ) := by
    norm_num [wHold, initState]
  rw [h.2, if_pos hlt]
  have harg : 1000 / ((50 : Int) : ℚ) - ((10 : ℚ) - wHold.frameStart) = 10 := by
    norm_num [wHold, initState]
  rw [harg]
  decide

/-! ## Claim C10 -/

/-- C10: `SetFrameCount(true)` with the registry flag already set is a
no-op that leaves the application-disabled flag unchanged; only the
unset-to-set transition clears it; hence after `DisableFrameCount`,
`EnableFrameCount` stays refused even if `SetFrameCount(true)` is called
while the flag is already set. -/
theorem setFrameCount_keeps_disabled (rr rr2 rr3 : ℚ) (name : String) (s s3 : SpoutState)
    (hb : s.bFrameCount = true) (hb3 : s3.bFrameCount = false) :
    setFrameCount rr true s = s
    ∧ (setFrameCount rr2 true (disableFrameCount rr s)).bDisabled = true
    ∧ enableFrameCount rr3 name (setFrameCount rr2 true (disableFrameCount rr s))
        = setFrameCount rr2 true (disableFrameCount rr s)
    ∧ (setFrameCount rr true s3).bDisabled = false := by
  have hdisb : (disableFrameCount rr s).bFrameCount = true := by
    unfold disableFrameCount cleanupFrameCount
    split_ifs <;> exact hb
  have hdisd : (disableFrameCount rr s).bDisabled = true := rfl
  have hset : setFrameCount rr2 true (disableFrameCount rr s) = disableFrameCount rr s := by
    unfold setFrameCount
    simp [hdisb]
  refine ⟨?_, ?_, ?_, ?_⟩
  · unfold setFrameCount
    simp [hb]
  · rw [hset]
    exact hdisd
  · rw [hset]
    unfold enableFrameCount
    simp [hdisb, hdisd]
  · unfold setFrameCount
    simp [hb3]

/-- C10 witness: on `wChan` (flag set), `SetFrameCount(true)` changes
nothing; after disabling, re-setting the flag keeps the channel refused;
on a flag-unset state the transition clears the disable flag. -/
theorem setFrameCount_keeps_disabled_witness :
    setFrameCount 60 true wChan = wChan
    ∧ (setFrameCount 60 true (disableFrameCount 60 wChan)).bDisabled = true
    ∧ enableFrameCount 60 "A" (setFrameCount 60 true (disableFrameCount 60 wChan))
        = setFrameCount 60 true (disableFrameCount 60 wChan)
    ∧ (setFrameCount 60 true (initState false 60)).bDisabled = false :=
  setFrameCount_keeps_disabled 60 60 60 "A" wChan (initState false 60) rfl rfl

end SpoutFC
